import Mathlib

/-!
Verification of the user-feedback bridge: shallow embedding of the shared
file/error utilities, the request handler, the subprocess launcher variants,
the Electron main-process handshake writers, and the tool registration layer,
together with theorems checking the specification's claims against them.

Conventions of the embedding:
* JavaScript numbers used as timestamps / exit codes become `Nat` / `Option Int`
  (`none` models JS `null`).
* Fallible effects (JSON file reads, `require.resolve`, `fs.remove`) become
  `Except String` values carried in an explicit world record; the functions
  under verification are pure functions of that world.
* Optional JS object fields become `Option` fields.
-/

/-- Image attachment record (`ImageData` in `shared/src/types.ts`):
base64 `data` plus a `mimeType`. -/
structure ImageData where
  data : String
  mimeType : String
deriving Repr, DecidableEq

/-- Status enum (`FeedbackStatus` in `shared/src/types.ts`). -/
inductive FeedbackStatus where
  | success
  | error
  | timeout
  | cancelled
deriving Repr, DecidableEq

/-- File-resident handshake payload (`FeedbackFile` in `shared/src/types.ts`):
`cancelled` and `images` are optional fields. -/
structure FeedbackFile where
  feedback : String
  timestamp : Nat
  cancelled : Option Bool
  images : Option (List ImageData)
deriving Repr, DecidableEq

/-- Response shape returned to the caller (`UserFeedbackResponse` in
`shared/src/types.ts`): `error` and `images` are optional fields. -/
structure UserFeedbackResponse where
  feedback : String
  status : FeedbackStatus
  error : Option String
  images : Option (List ImageData)
deriving Repr, DecidableEq

/-- Request shape (`UserFeedbackRequest` in `shared/src/types.ts`); a JS call
with the `prompt` key absent or `undefined` is modelled by the empty string,
which the code treats identically (`!params.prompt`). -/
structure UserFeedbackRequest where
  prompt : String
deriving Repr, DecidableEq

/-- Embeds `createErrorResponse` from `shared/src/error-utils.ts`: an empty
feedback, the given status (the TS default argument is `FeedbackStatus.ERROR`;
call sites passing no status are modelled by passing `.error` explicitly), and
the message as the `error` field. -/
def createErrorResponse (message : String) (status : FeedbackStatus) : UserFeedbackResponse :=
  { feedback := ""
    status := status
    error := some message
    images := none }

/-- Embeds `createTimeoutResponse` from `shared/src/error-utils.ts`. -/
def createTimeoutResponse : UserFeedbackResponse :=
  { feedback := ""
    status := FeedbackStatus.timeout
    error := some "Operation timed out waiting for user feedback"
    images := none }

/-- Embeds `createCancelledResponse` from `shared/src/error-utils.ts`. -/
def createCancelledResponse : UserFeedbackResponse :=
  { feedback := ""
    status := FeedbackStatus.cancelled
    error := some "User cancelled feedback by closing the window"
    images := none }

/-- File name constant (`FEEDBACK_FILE_NAME` in `shared/src/constants.ts`). -/
def FEEDBACK_FILE_NAME : String := "feedback.json"

/-- Scratch directory (`TEMP_DIR` in `shared/src/constants.ts`):
`path.join(os.tmpdir(), "get-user-feedback")`. The ambient `os.tmpdir()` is a
parameter; `path.join` of two relative-free segments is modelled as
slash-separated concatenation. -/
def TEMP_DIR (tmpdir : String) : String := tmpdir ++ "/" ++ "get-user-feedback"

/-- Embeds `generateFeedbackFilePath` from `shared/src/file-utils.ts`:
`path.join(TEMP_DIR, Date.now().toString() + "-" + FEEDBACK_FILE_NAME)`; the
current time `Date.now()` is the `now` parameter. -/
def generateFeedbackFilePath (tmpdir : String) (now : Nat) : String :=
  TEMP_DIR tmpdir ++ "/" ++ (Nat.repr now ++ "-" ++ FEEDBACK_FILE_NAME)

/-- Embeds `writeFeedbackToFile` from `shared/src/file-utils.ts` (the
image-bearing revision): builds the JSON record that `fs.writeJson` serialises,
with `cancelled` always present and `images` added only when provided and
non-empty. `Date.now()` is the `now` parameter. -/
def writeFeedbackToFile (now : Nat) (feedback : String) (cancelled : Bool)
    (images : Option (List ImageData)) : FeedbackFile :=
  let data : FeedbackFile :=
    { feedback := feedback
      timestamp := now
      cancelled := some cancelled
      images := none }
  match images with
  | some imgs => if imgs.length > 0 then { data with images := some imgs } else data
  | none => data

/-- Embeds `readFeedbackFromFile` from `shared/src/file-utils.ts` (the
image-bearing revision): the `fs.readJson` outcome is the `contents` parameter
(`Except.error` models a missing/unreadable/unparsable file, carrying the JS
error message). A truthy `cancelled` yields the cancelled response; otherwise a
success response carrying the record's feedback, with `images` copied over only
when present and non-empty. -/
def readFeedbackFromFile (contents : Except String FeedbackFile) : UserFeedbackResponse :=
  match contents with
  | Except.ok data =>
      if data.cancelled.getD false then
        { feedback := ""
          status := FeedbackStatus.cancelled
          error := some "User cancelled feedback by closing the window"
          images := none }
      else
        let response : UserFeedbackResponse :=
          { feedback := data.feedback
            status := FeedbackStatus.success
            error := none
            images := none }
        match data.images with
        | some imgs => if imgs.length > 0 then { response with images := some imgs } else response
        | none => response
  | Except.error msg =>
      { feedback := ""
        status := FeedbackStatus.error
        error := some ("Failed to read feedback file: " ++ msg)
        images := none }

/-- Embeds `cleanupFeedbackFile` from `shared/src/file-utils.ts`: the
`fs.remove` outcome is the parameter; a failure produces a `console.error` log
line (returned as `some` message) and is swallowed — the function always
returns, never propagates. -/
def cleanupFeedbackFile (removeResult : Except String Unit) : Option String :=
  match removeResult with
  | Except.ok _ => none
  | Except.error m => some ("Failed to clean up feedback file: " ++ m)

/-- C1: for every handshake file read outcome, `readFeedbackFromFile` returns
`status=success` iff the file was read and parsed without error and its
`cancelled` field is false or absent; a parsed record with `cancelled` true
yields `status=cancelled`; a read/parse failure yields `status=error` with a
"Failed to read feedback file" message; and on success the record's feedback
(and images, when present) are carried into the response. -/
theorem readFeedbackFromFile_status_spec (contents : Except String FeedbackFile) :
    ((readFeedbackFromFile contents).status = FeedbackStatus.success ↔
       ∃ data, contents = Except.ok data ∧ data.cancelled.getD false = false) ∧
    (∀ data, contents = Except.ok data → data.cancelled.getD false = true →
       (readFeedbackFromFile contents).status = FeedbackStatus.cancelled) ∧
    (∀ msg, contents = Except.error msg →
       (readFeedbackFromFile contents).status = FeedbackStatus.error ∧
       (readFeedbackFromFile contents).error =
         some ("Failed to read feedback file: " ++ msg)) ∧
    (∀ data, contents = Except.ok data → data.cancelled.getD false = false →
       (readFeedbackFromFile contents).feedback = data.feedback ∧
       (∀ imgs, data.images = some imgs → imgs ≠ [] →
          (readFeedbackFromFile contents).images = some imgs)) := by
  refine ⟨?_, ?_, ?_, ?_⟩
  · constructor
    · intro h
      match contents with
      | Except.ok data =>
          refine ⟨data, rfl, ?_⟩
          by_contra hb
          have hc : data.cancelled.getD false = true := by
            cases hx : data.cancelled.getD false
            · exact absurd hx hb
            · rfl
          simp [readFeedbackFromFile, hc] at h
      | Except.error msg =>
          simp [readFeedbackFromFile] at h
    · rintro ⟨data, rfl, hc⟩
      cases hi : data.images with
      | none => simp [readFeedbackFromFile, hc, hi]
      | some imgs =>
          by_cases hl : imgs.length > 0
          · simp [readFeedbackFromFile, hc, hi, hl]
          · simp [readFeedbackFromFile, hc, hi, hl]
  · rintro data rfl hc
    simp [readFeedbackFromFile, hc]
  · rintro msg rfl
    exact ⟨rfl, rfl⟩
  · rintro data rfl hc
    constructor
    · cases hi : data.images with
      | none => simp [readFeedbackFromFile, hc, hi]
      | some imgs =>
          by_cases hl : imgs.length > 0
          · simp [readFeedbackFromFile, hc, hi, hl]
          · simp [readFeedbackFromFile, hc, hi, hl]
    · intro imgs hi hne
      have hl : imgs.length > 0 := List.length_pos.mpr hne
      simp [readFeedbackFromFile, hc, hi, hl]

/-- C1 witness: concrete success read carrying feedback and images, evaluated
via the claim theorem. -/
theorem readFeedbackFromFile_status_spec_witness :
    (readFeedbackFromFile (Except.ok
      { feedback := "looks good"
        timestamp := 7
        cancelled := none
        images := some [{ data := "abc", mimeType := "image/png" }] })).status =
        FeedbackStatus.success ∧
    (readFeedbackFromFile (Except.ok
      { feedback := "looks good"
        timestamp := 7
        cancelled := none
        images := some [{ data := "abc", mimeType := "image/png" }] })).feedback =
        "looks good" ∧
    (readFeedbackFromFile (Except.ok
      { feedback := "looks good"
        timestamp := 7
        cancelled := none
        images := some [{ data := "abc", mimeType := "image/png" }] })).images =
        some [{ data := "abc", mimeType := "image/png" }] := by
  have h := readFeedbackFromFile_status_spec (Except.ok
      { feedback := "looks good"
        timestamp := 7
        cancelled := none
        images := some [{ data := "abc", mimeType := "image/png" }] })
  refine ⟨?_, ?_, ?_⟩
  · exact h.1.mpr ⟨_, rfl, rfl⟩
  · exact (h.2.2.2 _ rfl rfl).1
  · exact (h.2.2.2 _ rfl rfl).2 _ rfl (by decide)

/-- Ambient host-process facts that `launchElectronGui` interpolates into its
diagnostic messages (`process.platform`, `process.arch`, `process.version`,
`process.cwd()`, and the spawned child's pid). -/
structure HostInfo where
  platform : String
  arch : String
  nodeVersion : String
  cwd : String
  pid : Nat
deriving Repr, DecidableEq

/-- Spawn-site facts interpolated into the diagnostic messages: the resolved
electron executable, the GUI entry point, and the two handshake environment
variables. -/
structure SpawnConfig where
  electronPath : String
  electronGuiPath : String
  promptEnv : String
  feedbackFileEnv : String
deriving Repr, DecidableEq

/-- Terminal event of the spawned subprocess: either the `exit` event with a
code (JS `null` when killed by signal, modelled as `none`) and an optional
signal name, or the `error` event of a failed spawn. -/
inductive ProcessOutcome where
  | exited (code : Option Int) (signal : Option String)
  | errored (message : String) (name : String) (stack : String)
deriving Repr, DecidableEq

/-- Resolution shape of `launchElectronGui` in the handler module:
`{ status, error? }`. -/
structure LaunchResult where
  status : FeedbackStatus
  error : Option String
deriving Repr, DecidableEq

/-- JS template interpolation of a nullable exit code: a number prints in
decimal, `null` prints as the string `null`. -/
def jsCodeRepr (code : Option Int) : String :=
  match code with
  | some c => toString c
  | none => "null"

/-- JSON rendering of a nullable string field. -/
def jsNullableStr (s : Option String) : String :=
  match s with
  | some v => "\"" ++ v ++ "\""
  | none => "null"

/-- JS `a || b` on an optional string: `undefined` and the empty string both
fall through to the default. -/
def jsOrElse (o : Option String) (d : String) : String :=
  match o with
  | none => d
  | some s => if s = "" then d else s

/-- Embeds the `errorDetails` object built in the `exit` handler of
`launchElectronGui` (handler module, nonzero-exit branch), rendered in the
field order of the object literal as `JSON.stringify` does; pretty-printing
whitespace is abbreviated, braces written via escapes. -/
def exitErrorDetails (cfg : SpawnConfig) (host : HostInfo) (code : Option Int)
    (signal : Option String) (stdoutData stderrData : String) : String :=
  "\x7b \"exitCode\": " ++ jsCodeRepr code ++
  ", \"signal\": " ++ jsNullableStr signal ++
  ", \"electronPath\": \"" ++ cfg.electronPath ++
  "\", \"electronGuiPath\": \"" ++ cfg.electronGuiPath ++
  "\", \"processId\": " ++ Nat.repr host.pid ++
  ", \"env\": \x7b \"USER_FEEDBACK_PROMPT\": \"" ++ cfg.promptEnv ++
  "\", \"USER_FEEDBACK_FILE\": \"" ++ cfg.feedbackFileEnv ++
  "\" \x7d, \"spawnArgs\": [\"" ++ cfg.electronGuiPath ++
  "\", \"--no-sandbox\", \"--disable-dev-shm-usage\", \"--disable-gpu-sandbox\"], \"platform\": \"" ++ host.platform ++
  "\", \"arch\": \"" ++ host.arch ++
  "\", \"nodeVersion\": \"" ++ host.nodeVersion ++
  "\", \"stdout\": \"" ++ stdoutData.trim ++
  "\", \"stderr\": \"" ++ stderrData.trim ++
  "\" \x7d"

/-- Embeds the detailed message resolved by the nonzero-exit branch:
`Electron process exited with code CODE. Details: JSON`. -/
def exitDetailedErrorMessage (cfg : SpawnConfig) (host : HostInfo) (code : Option Int)
    (signal : Option String) (stdoutData stderrData : String) : String :=
  "Electron process exited with code " ++ jsCodeRepr code ++
  ". Details: " ++ exitErrorDetails cfg host code signal stdoutData stderrData

/-- Embeds the `errorDetails` object built in the `error` (spawn failure)
handler of `launchElectronGui`, in the field order of the object literal. -/
def spawnErrorDetails (cfg : SpawnConfig) (host : HostInfo)
    (emsg ename estack : String) (stdoutData stderrData : String) : String :=
  "\x7b \"errorMessage\": \"" ++ emsg ++
  "\", \"errorName\": \"" ++ ename ++
  "\", \"errorStack\": \"" ++ estack ++
  "\", \"electronPath\": \"" ++ cfg.electronPath ++
  "\", \"electronGuiPath\": \"" ++ cfg.electronGuiPath ++
  "\", \"spawnArgs\": [\"" ++ cfg.electronGuiPath ++
  "\", \"--no-sandbox\", \"--disable-dev-shm-usage\", \"--disable-gpu-sandbox\"], \"env\": \x7b \"USER_FEEDBACK_PROMPT\": \"" ++ cfg.promptEnv ++
  "\", \"USER_FEEDBACK_FILE\": \"" ++ cfg.feedbackFileEnv ++
  "\" \x7d, \"platform\": \"" ++ host.platform ++
  "\", \"arch\": \"" ++ host.arch ++
  "\", \"nodeVersion\": \"" ++ host.nodeVersion ++
  "\", \"cwd\": \"" ++ host.cwd ++
  "\", \"stdout\": \"" ++ stdoutData.trim ++
  "\", \"stderr\": \"" ++ stderrData.trim ++
  "\" \x7d"

/-- Embeds the detailed message resolved by the spawn-failure branch:
`Failed to start Electron process: MSG. Details: JSON`. -/
def spawnDetailedErrorMessage (cfg : SpawnConfig) (host : HostInfo)
    (emsg ename estack : String) (stdoutData stderrData : String) : String :=
  "Failed to start Electron process: " ++ emsg ++
  ". Details: " ++ spawnErrorDetails cfg host emsg ename estack stdoutData stderrData

/-- Embeds `launchElectronGui` from the handler module (the timeout-removed
revision): resolves `success` on exit code 0, otherwise `error` with the
detailed diagnostic; a spawn failure resolves `error` with its diagnostic.
`stdoutData`/`stderrData` are the streams captured up to the terminal event.
The promise resolves exactly once: the function is total and returns a single
`LaunchResult`. -/
def launchElectronGui (cfg : SpawnConfig) (host : HostInfo) (outcome : ProcessOutcome)
    (stdoutData stderrData : String) : LaunchResult :=
  match outcome with
  | ProcessOutcome.exited code signal =>
      if code = some 0 then
        { status := FeedbackStatus.success, error := none }
      else
        { status := FeedbackStatus.error
          error := some (exitDetailedErrorMessage cfg host code signal stdoutData stderrData) }
  | ProcessOutcome.errored m n st =>
      { status := FeedbackStatus.error
        error := some (spawnDetailedErrorMessage cfg host m n st stdoutData stderrData) }

/-- Embeds `getElectronGuiPath` from the handler module: prefer the bundled
`electron/main.js` when it exists on disk; otherwise `require.resolve` it (the
`resolveResult` parameter carries that call's outcome) and use the result when
it exists on disk; otherwise throw. Every thrown error is caught and re-thrown
with the `Failed to resolve Electron GUI path: ` prefix. -/
def getElectronGuiPath (bundledPathExists : Bool) (bundledPath : String)
    (resolveResult : Except String String) (resolvedExists : Bool) : Except String String :=
  if bundledPathExists then Except.ok bundledPath
  else
    match resolveResult with
    | Except.ok rp =>
        if resolvedExists then Except.ok rp
        else Except.error ("Failed to resolve Electron GUI path: " ++
          "Could not find Electron GUI path")
    | Except.error m => Except.error ("Failed to resolve Electron GUI path: " ++ m)

/-- Observable steps taken by `getUserFeedback`, in order. -/
inductive TraceStep where
  | ensureTempDir
  | generatePath (p : String)
  | spawnProcess
  | readFile (p : String)
  | cleanupAttempt (p : String)
deriving Repr, DecidableEq

/-- World against which one `getUserFeedback` call runs: the current time and
scratch root for path generation, the outcome of GUI-entry-point resolution
(`Except.error` models `getElectronGuiPath` throwing, carrying the thrown
message), the resolved electron executable, the subprocess terminal event and
captured streams, the ambient host facts, the handshake-file read outcome, and
the `fs.remove` outcome of the final cleanup. -/
structure World where
  now : Nat
  tmpdir : String
  guiPath : Except String String
  electronPath : String
  outcome : ProcessOutcome
  stdoutData : String
  stderrData : String
  host : HostInfo
  fileContents : Except String FeedbackFile
  removeResult : Except String Unit

/-- Launch result of the world's subprocess run, with the environment the
handler passes (`ENV_PROMPT` bound to the request prompt and
`ENV_FEEDBACK_FILE` bound to the generated handshake path). -/
def launchResultOf (params : UserFeedbackRequest) (w : World) (g : String) : LaunchResult :=
  launchElectronGui
    { electronPath := w.electronPath
      electronGuiPath := g
      promptEnv := params.prompt
      feedbackFileEnv := generateFeedbackFilePath w.tmpdir w.now }
    w.host w.outcome w.stdoutData w.stderrData

/-- Embeds `getUserFeedback` from the handler module (timeout-removed
revision), paired with the ordered trace of observable actions. Validation of
the prompt happens before `ensureTempDir` and path generation; the GUI path
resolution throw is caught by the surrounding `catch` and turned into an error
response; a launcher `error` result is returned via
`createErrorResponse(result.error || "Unknown error", result.status)`;
otherwise the handshake file is read. The `finally` block attempts cleanup on
every one of these exit paths; its `fs.remove` outcome (`w.removeResult`)
never influences the response. -/
def getUserFeedback (params : UserFeedbackRequest) (w : World) :
    UserFeedbackResponse × List TraceStep :=
  if params.prompt = "" then
    (createErrorResponse "Prompt is required" FeedbackStatus.error, [])
  else
    let fp := generateFeedbackFilePath w.tmpdir w.now
    match w.guiPath with
    | Except.error msg =>
        (createErrorResponse msg FeedbackStatus.error,
         [TraceStep.ensureTempDir, TraceStep.generatePath fp, TraceStep.cleanupAttempt fp])
    | Except.ok g =>
        let result := launchResultOf params w g
        if result.status = FeedbackStatus.error then
          (createErrorResponse (jsOrElse result.error "Unknown error") result.status,
           [TraceStep.ensureTempDir, TraceStep.generatePath fp, TraceStep.spawnProcess,
            TraceStep.cleanupAttempt fp])
        else
          (readFeedbackFromFile w.fileContents,
           [TraceStep.ensureTempDir, TraceStep.generatePath fp, TraceStep.spawnProcess,
            TraceStep.readFile fp, TraceStep.cleanupAttempt fp])

/-- Same world with a different `fs.remove` outcome for the cleanup step. -/
def setRemoveResult (w : World) (rr : Except String Unit) : World :=
  { w with removeResult := rr }

/-- Concrete world used by witnesses: a successful run over a readable record. -/
def sampleWorld : World :=
  { now := 42
    tmpdir := "/tmp"
    guiPath := Except.ok "/srv/app/dist/electron/main.js"
    electronPath := "electron"
    outcome := ProcessOutcome.exited (some 0) none
    stdoutData := ""
    stderrData := ""
    host := { platform := "linux", arch := "x64", nodeVersion := "v20.0.0", cwd := "/srv", pid := 1234 }
    fileContents := Except.ok { feedback := "ok", timestamp := 42, cancelled := some false, images := none }
    removeResult := Except.ok () }

/-- C3: a request whose prompt is absent or empty yields an immediate error
response with message `Prompt is required`, and the action trace is empty: no
scratch directory is ensured, no handshake path is generated, and no
subprocess is spawned. -/
theorem getUserFeedback_empty_prompt (params : UserFeedbackRequest) (w : World)
    (hp : params.prompt = "") :
    (getUserFeedback params w).fst = createErrorResponse "Prompt is required" FeedbackStatus.error ∧
    (getUserFeedback params w).fst.status = FeedbackStatus.error ∧
    (getUserFeedback params w).fst.error = some "Prompt is required" ∧
    (getUserFeedback params w).snd = [] := by
  refine ⟨?_, ?_, ?_, ?_⟩ <;> simp [getUserFeedback, hp, createErrorResponse]

/-- C3 witness: the empty prompt against a fully healthy world. -/
theorem getUserFeedback_empty_prompt_witness :
    (getUserFeedback { prompt := "" } sampleWorld).fst.status = FeedbackStatus.error ∧
    (getUserFeedback { prompt := "" } sampleWorld).snd = [] := by
  have h := getUserFeedback_empty_prompt { prompt := "" } sampleWorld rfl
  exact ⟨h.2.1, h.2.2.2⟩

/-- C4: for every non-empty prompt and every world (covering the normal
return, the launcher error return, and the GUI-resolution throw where the file
was never created), the cleanup of the generated handshake path is attempted
exactly once, as the final action; the response is unchanged under any
`fs.remove` outcome; and a failed removal is logged and swallowed
(`cleanupFeedbackFile` returns the log line instead of propagating). -/
theorem getUserFeedback_cleanup_exactly_once (params : UserFeedbackRequest) (w : World)
    (hp : params.prompt ≠ "") :
    ((getUserFeedback params w).snd.count
       (TraceStep.cleanupAttempt (generateFeedbackFilePath w.tmpdir w.now)) = 1) ∧
    ((getUserFeedback params w).snd.getLast? =
       some (TraceStep.cleanupAttempt (generateFeedbackFilePath w.tmpdir w.now))) ∧
    (∀ rr, (getUserFeedback params (setRemoveResult w rr)).fst = (getUserFeedback params w).fst) ∧
    (∀ m, cleanupFeedbackFile (Except.error m) = some ("Failed to clean up feedback file: " ++ m)) := by
  refine ⟨?_, ?_, ?_, ?_⟩
  · cases hg : w.guiPath with
    | error msg => simp [getUserFeedback, hp, hg, List.count_cons]
    | ok g =>
        by_cases hres : (launchResultOf params w g).status = FeedbackStatus.error <;>
          simp [getUserFeedback, hp, hg, hres, List.count_cons]
  · cases hg : w.guiPath with
    | error msg => simp [getUserFeedback, hp, hg]
    | ok g =>
        by_cases hres : (launchResultOf params w g).status = FeedbackStatus.error <;>
          simp [getUserFeedback, hp, hg, hres]
  · intro rr
    cases hg : w.guiPath with
    | error msg => simp [getUserFeedback, hp, hg, setRemoveResult]
    | ok g =>
        have hlr : launchResultOf params (setRemoveResult w rr) g = launchResultOf params w g := rfl
        by_cases hres : (launchResultOf params w g).status = FeedbackStatus.error <;>
          simp [getUserFeedback, hp, hg, hres, setRemoveResult, hlr, launchResultOf]
  · intro m
    rfl

/-- C4 witness: a world whose cleanup removal fails still reports exactly one
cleanup attempt and the same successful response. -/
theorem getUserFeedback_cleanup_exactly_once_witness :
    ((getUserFeedback { prompt := "hi" } sampleWorld).snd.count
       (TraceStep.cleanupAttempt (generateFeedbackFilePath sampleWorld.tmpdir sampleWorld.now)) = 1) ∧
    ((getUserFeedback { prompt := "hi" }
        (setRemoveResult sampleWorld (Except.error "EACCES"))).fst =
      (getUserFeedback { prompt := "hi" } sampleWorld).fst) ∧
    (cleanupFeedbackFile (Except.error "EACCES") =
      some ("Failed to clean up feedback file: " ++ "EACCES")) := by
  have h := getUserFeedback_cleanup_exactly_once { prompt := "hi" } sampleWorld (by decide)
  exact ⟨h.1, h.2.2.1 (Except.error "EACCES"), h.2.2.2 "EACCES"⟩

/-- C6: when the GUI entry point cannot be located, the throw happens before
any spawn (the trace contains no spawn step), `getUserFeedback` catches it and
returns a uniform `status=error` response carrying the thrown message — never
a timeout — and every error produced by `getElectronGuiPath` carries the
descriptive `Failed to resolve Electron GUI path: ` message. -/
theorem getUserFeedback_gui_resolution_failure (params : UserFeedbackRequest) (w : World)
    (msg : String) (hp : params.prompt ≠ "") (hg : w.guiPath = Except.error msg) :
    TraceStep.spawnProcess ∉ (getUserFeedback params w).snd ∧
    (getUserFeedback params w).fst = createErrorResponse msg FeedbackStatus.error ∧
    (getUserFeedback params w).fst.status = FeedbackStatus.error ∧
    (getUserFeedback params w).fst.status ≠ FeedbackStatus.timeout ∧
    (∀ b bp rr re m2, getElectronGuiPath b bp rr re = Except.error m2 →
       ∃ rest, m2 = "Failed to resolve Electron GUI path: " ++ rest) := by
  refine ⟨?_, ?_, ?_, ?_, ?_⟩
  · simp [getUserFeedback, hp, hg]
  · simp [getUserFeedback, hp, hg]
  · simp [getUserFeedback, hp, hg, createErrorResponse]
  · simp [getUserFeedback, hp, hg, createErrorResponse]
  · intro b bp rr re m2 h
    by_cases hb : b
    · simp [getElectronGuiPath, hb] at h
    · cases rr with
      | ok rp =>
          by_cases hre : re
          · simp [getElectronGuiPath, hb, hre] at h
          · simp [getElectronGuiPath, hb, hre] at h
            exact ⟨"Could not find Electron GUI path", h.symm⟩
      | error m =>
          simp [getElectronGuiPath, hb] at h
          exact ⟨m, h.symm⟩

/-- C6 witness: a world whose GUI path resolution threw. -/
theorem getUserFeedback_gui_resolution_failure_witness :
    TraceStep.spawnProcess ∉
      (getUserFeedback { prompt := "hi" }
        { sampleWorld with
            guiPath := Except.error "Failed to resolve Electron GUI path: boom" }).snd ∧
    (getUserFeedback { prompt := "hi" }
        { sampleWorld with
            guiPath := Except.error "Failed to resolve Electron GUI path: boom" }).fst.status =
      FeedbackStatus.error := by
  have h := getUserFeedback_gui_resolution_failure { prompt := "hi" }
    { sampleWorld with
        guiPath := Except.error "Failed to resolve Electron GUI path: boom" }
    "Failed to resolve Electron GUI path: boom" (by decide) rfl
  exact ⟨h.1, h.2.2.1⟩

/-- String containment: `sub` occurs contiguously inside `s`. -/
def strContains (s sub : String) : Prop := ∃ a b, s = a ++ sub ++ b

/-- A string contains itself. -/
theorem strContains_refl (s : String) : strContains s s := ⟨"", "", by simp⟩

/-- Containment is preserved by prepending. -/
theorem strContains_prepend (t : String) {s sub : String} (h : strContains s sub) :
    strContains (t ++ s) sub := by
  obtain ⟨a, b, rfl⟩ := h
  exact ⟨t ++ a, b, by simp [String.append_assoc]⟩

/-- Containment is preserved by appending. -/
theorem strContains_append (t : String) {s sub : String} (h : strContains s sub) :
    strContains (s ++ t) sub := by
  obtain ⟨a, b, rfl⟩ := h
  exact ⟨a, b ++ t, by simp [String.append_assoc]⟩

/-- Appending to a non-empty string stays non-empty. -/
theorem string_append_ne_empty (a b : String) (ha : a ≠ "") : a ++ b ≠ "" := by
  intro h
  apply ha
  have hd : a.data ++ b.data = [] := by
    have := congrArg String.data h
    simpa [String.data_append] using this
  have : a.data = [] := (List.append_eq_nil.mp hd).1
  cases a
  simp_all

/-- The nonzero-exit diagnostic is never empty. -/
theorem exitDetailedErrorMessage_ne_empty (cfg : SpawnConfig) (host : HostInfo)
    (code : Option Int) (signal : Option String) (so se : String) :
    exitDetailedErrorMessage cfg host code signal so se ≠ "" := by
  unfold exitDetailedErrorMessage
  exact string_append_ne_empty _ _ (string_append_ne_empty _ _
    (string_append_ne_empty _ _ (by decide)))

/-- The spawn-failure diagnostic is never empty. -/
theorem spawnDetailedErrorMessage_ne_empty (cfg : SpawnConfig) (host : HostInfo)
    (emsg ename estack so se : String) :
    spawnDetailedErrorMessage cfg host emsg ename estack so se ≠ "" := by
  unfold spawnDetailedErrorMessage
  exact string_append_ne_empty _ _ (string_append_ne_empty _ _
    (string_append_ne_empty _ _ (by decide)))

/-- The nonzero-exit diagnostic contains the printed exit code. -/
theorem exitDetailedErrorMessage_contains_code (cfg : SpawnConfig) (host : HostInfo)
    (code : Option Int) (signal : Option String) (so se : String) :
    strContains (exitDetailedErrorMessage cfg host code signal so se) (jsCodeRepr code) := by
  unfold exitDetailedErrorMessage
  exact strContains_append _ (strContains_append _
    (strContains_prepend _ (strContains_refl _)))

/-- The nonzero-exit diagnostic contains the captured (trimmed) stdout and
stderr. -/
theorem exitDetailedErrorMessage_contains_streams (cfg : SpawnConfig) (host : HostInfo)
    (code : Option Int) (signal : Option String) (so se : String) :
    strContains (exitDetailedErrorMessage cfg host code signal so se) so.trim ∧
    strContains (exitDetailedErrorMessage cfg host code signal so se) se.trim := by
  unfold exitDetailedErrorMessage exitErrorDetails
  constructor
  · exact strContains_prepend _ (strContains_append _ (strContains_append _
      (strContains_append _ (strContains_prepend _ (strContains_refl _)))))
  · exact strContains_prepend _ (strContains_append _
      (strContains_prepend _ (strContains_refl _)))

/-- The spawn-failure diagnostic contains the spawn error message. -/
theorem spawnDetailedErrorMessage_contains_message (cfg : SpawnConfig) (host : HostInfo)
    (emsg ename estack so se : String) :
    strContains (spawnDetailedErrorMessage cfg host emsg ename estack so se) emsg := by
  unfold spawnDetailedErrorMessage
  exact strContains_append _ (strContains_append _
    (strContains_prepend _ (strContains_refl _)))

/-- The spawn-failure diagnostic contains the captured (trimmed) stdout and
stderr. -/
theorem spawnDetailedErrorMessage_contains_streams (cfg : SpawnConfig) (host : HostInfo)
    (emsg ename estack so se : String) :
    strContains (spawnDetailedErrorMessage cfg host emsg ename estack so se) so.trim ∧
    strContains (spawnDetailedErrorMessage cfg host emsg ename estack so se) se.trim := by
  unfold spawnDetailedErrorMessage spawnErrorDetails
  constructor
  · exact strContains_prepend _ (strContains_append _ (strContains_append _
      (strContains_append _ (strContains_prepend _ (strContains_refl _)))))
  · exact strContains_prepend _ (strContains_append _
      (strContains_prepend _ (strContains_refl _)))

/-- What C5 requires of a failed run: the launcher resolves `error` (never
`success`) carrying a diagnostic that contains the given token (the printed
exit code, or the spawn error message) together with the captured trimmed
stdout and stderr, and the request handler returns that very message in an
error response. -/
def launchFailureSpec (params : UserFeedbackRequest) (w : World) (g : String)
    (token : String) : Prop :=
  (launchResultOf params w g).status = FeedbackStatus.error ∧
  (launchResultOf params w g).status ≠ FeedbackStatus.success ∧
  (getUserFeedback params w).fst.status = FeedbackStatus.error ∧
  ∃ msg, (launchResultOf params w g).error = some msg ∧
    strContains msg token ∧
    strContains msg w.stdoutData.trim ∧
    strContains msg w.stderrData.trim ∧
    (getUserFeedback params w).fst.error = some msg

/-- C5: every subprocess run that exits with a nonzero (or null) exit code,
and every spawn failure, makes the launcher resolve `status=error` with a
diagnostic containing the exit code (resp. the spawn error message) and the
captured stdout/stderr, and `getUserFeedback` returns that message in an
error response. -/
theorem getUserFeedback_subprocess_failure (params : UserFeedbackRequest) (w : World)
    (g : String) (hp : params.prompt ≠ "") (hg : w.guiPath = Except.ok g) :
    (∀ code sig, w.outcome = ProcessOutcome.exited code sig → code ≠ some 0 →
       launchFailureSpec params w g (jsCodeRepr code)) ∧
    (∀ m n st, w.outcome = ProcessOutcome.errored m n st →
       launchFailureSpec params w g m) := by
  constructor
  · intro code sig ho hc
    have hlr : launchResultOf params w g =
        { status := FeedbackStatus.error
          error := some (exitDetailedErrorMessage
            { electronPath := w.electronPath
              electronGuiPath := g
              promptEnv := params.prompt
              feedbackFileEnv := generateFeedbackFilePath w.tmpdir w.now }
            w.host code sig w.stdoutData w.stderrData) } := by
      simp [launchResultOf, launchElectronGui, ho, hc]
    have hres : (launchResultOf params w g).status = FeedbackStatus.error := by rw [hlr]
    have hne := exitDetailedErrorMessage_ne_empty
      { electronPath := w.electronPath
        electronGuiPath := g
        promptEnv := params.prompt
        feedbackFileEnv := generateFeedbackFilePath w.tmpdir w.now }
      w.host code sig w.stdoutData w.stderrData
    have hhandler : (getUserFeedback params w).fst =
        createErrorResponse (jsOrElse (launchResultOf params w g).error "Unknown error")
          FeedbackStatus.error := by
      simp [getUserFeedback, hp, hg, hres]
    refine ⟨hres, by rw [hres]; decide, by rw [hhandler]; rfl, ?_⟩
    refine ⟨_, by rw [hlr], exitDetailedErrorMessage_contains_code _ _ _ _ _ _,
      (exitDetailedErrorMessage_contains_streams _ _ _ _ _ _).1,
      (exitDetailedErrorMessage_contains_streams _ _ _ _ _ _).2, ?_⟩
    rw [hhandler, hlr]
    simp [createErrorResponse, jsOrElse, hne]
  · intro m n st ho
    have hlr : launchResultOf params w g =
        { status := FeedbackStatus.error
          error := some (spawnDetailedErrorMessage
            { electronPath := w.electronPath
              electronGuiPath := g
              promptEnv := params.prompt
              feedbackFileEnv := generateFeedbackFilePath w.tmpdir w.now }
            w.host m n st w.stdoutData w.stderrData) } := by
      simp [launchResultOf, launchElectronGui, ho]
    have hres : (launchResultOf params w g).status = FeedbackStatus.error := by rw [hlr]
    have hne := spawnDetailedErrorMessage_ne_empty
      { electronPath := w.electronPath
        electronGuiPath := g
        promptEnv := params.prompt
        feedbackFileEnv := generateFeedbackFilePath w.tmpdir w.now }
      w.host m n st w.stdoutData w.stderrData
    have hhandler : (getUserFeedback params w).fst =
        createErrorResponse (jsOrElse (launchResultOf params w g).error "Unknown error")
          FeedbackStatus.error := by
      simp [getUserFeedback, hp, hg, hres]
    refine ⟨hres, by rw [hres]; decide, by rw [hhandler]; rfl, ?_⟩
    refine ⟨_, by rw [hlr], spawnDetailedErrorMessage_contains_message _ _ _ _ _ _ _,
      (spawnDetailedErrorMessage_contains_streams _ _ _ _ _ _ _).1,
      (spawnDetailedErrorMessage_contains_streams _ _ _ _ _ _ _).2, ?_⟩
    rw [hhandler, hlr]
    simp [createErrorResponse, jsOrElse, hne]

/-- World of a run whose subprocess exits with code 1. -/
def exitOneWorld : World :=
  { sampleWorld with
      outcome := ProcessOutcome.exited (some 1) none
      stdoutData := "some stdout"
      stderrData := "boom" }

/-- C5 witness: exit code 1 yields an error resolution and an error response. -/
theorem getUserFeedback_subprocess_failure_witness :
    (launchResultOf { prompt := "hi" } exitOneWorld "/srv/app/dist/electron/main.js").status =
      FeedbackStatus.error ∧
    (getUserFeedback { prompt := "hi" } exitOneWorld).fst.status = FeedbackStatus.error := by
  have h := (getUserFeedback_subprocess_failure { prompt := "hi" } exitOneWorld
    "/srv/app/dist/electron/main.js" (by decide) rfl).1 (some 1) none rfl (by decide)
  obtain ⟨h1, _, h3, _⟩ := h
  exact ⟨h1, h3⟩

/-- Every read result satisfies the error-field discipline: the `error` field
is populated exactly when the status is not `success`. -/
theorem readFeedbackFromFile_error_iff (contents : Except String FeedbackFile) :
    (readFeedbackFromFile contents).error.isSome ↔
      (readFeedbackFromFile contents).status ≠ FeedbackStatus.success := by
  match contents with
  | Except.error msg => simp [readFeedbackFromFile]
  | Except.ok data =>
      cases hc : data.cancelled.getD false with
      | true => simp [readFeedbackFromFile, hc]
      | false =>
          cases hi : data.images with
          | none => simp [readFeedbackFromFile, hc, hi]
          | some imgs =>
              by_cases hl : imgs.length > 0 <;> simp [readFeedbackFromFile, hc, hi, hl]

/-- C9: every response the bridge produces carries the `error` field iff its
status is not `success`: all `getUserFeedback` responses and all
`readFeedbackFromFile` responses satisfy the iff, the timeout response carries
its message, and the cancelled response carries the message saying the user
closed the window; success responses omit the field. -/
theorem bridge_error_field_iff_not_success :
    (∀ params w, ((getUserFeedback params w).fst.error.isSome ↔
        (getUserFeedback params w).fst.status ≠ FeedbackStatus.success)) ∧
    (∀ contents, ((readFeedbackFromFile contents).error.isSome ↔
        (readFeedbackFromFile contents).status ≠ FeedbackStatus.success)) ∧
    (createTimeoutResponse.error = some "Operation timed out waiting for user feedback" ∧
     createTimeoutResponse.status ≠ FeedbackStatus.success) ∧
    (createCancelledResponse.error = some "User cancelled feedback by closing the window" ∧
     createCancelledResponse.status = FeedbackStatus.cancelled ∧
     createCancelledResponse.status ≠ FeedbackStatus.success) := by
  refine ⟨?_, readFeedbackFromFile_error_iff, ⟨rfl, by decide⟩, ⟨rfl, rfl, by decide⟩⟩
  intro params w
  by_cases hp : params.prompt = ""
  · simp [getUserFeedback, hp, createErrorResponse]
  · cases hg : w.guiPath with
    | error msg => simp [getUserFeedback, hp, hg, createErrorResponse]
    | ok g =>
        by_cases hres : (launchResultOf params w g).status = FeedbackStatus.error
        · simp [getUserFeedback, hp, hg, hres, createErrorResponse]
        · have hread := readFeedbackFromFile_error_iff w.fileContents
          simpa [getUserFeedback, hp, hg, hres] using hread

/-- Decimal digit list of a natural number, most significant first: the
fuel-free counterpart of the standard-library printer used by
`Date.now().toString()`. -/
def digitsRec (n : Nat) : List Char :=
  if h : n < 10 then [Nat.digitChar n]
  else
    have : n / 10 < n := Nat.div_lt_self (by omega) (by omega)
    digitsRec (n / 10) ++ [Nat.digitChar (n % 10)]

/-- Numeric value of a decimal digit character. -/
def digitVal (c : Char) : Nat := c.toNat - 48

/-- One step of reading a decimal numeral left to right. -/
def decodeStep (a : Nat) (c : Char) : Nat := a * 10 + digitVal c

/-- Value of a decimal numeral, most significant digit first. -/
def decodeNat (l : List Char) : Nat := l.foldl decodeStep 0

/-- Digit characters decode back to their value. -/
theorem digitVal_digitChar : ∀ n, n < 10 → digitVal (Nat.digitChar n) = n := by decide

/-- With sufficient fuel the standard-library digit printer agrees with
`digitsRec`, prepended to the accumulator. -/
theorem toDigitsCore_eq_digitsRec :
    ∀ fuel n ds, n < fuel → Nat.toDigitsCore 10 fuel n ds = digitsRec n ++ ds := by
  intro fuel
  induction fuel with
  | zero => intro n ds h; omega
  | succ f ih =>
      intro n ds h
      by_cases h10 : n < 10
      · have hz : n / 10 = 0 := by omega
        have hm : n % 10 = n := Nat.mod_eq_of_lt h10
        simp [Nat.toDigitsCore, hz, digitsRec, h10, hm]
      · have hz : n / 10 ≠ 0 := by omega
        have hlt : n / 10 < f := by
          have h1 : n / 10 < n := Nat.div_lt_self (by omega) (by omega)
          omega
        rw [show Nat.toDigitsCore 10 (f+1) n ds =
              Nat.toDigitsCore 10 f (n / 10) (Nat.digitChar (n % 10) :: ds) by
            simp [Nat.toDigitsCore, hz]]
        rw [ih (n / 10) (Nat.digitChar (n % 10) :: ds) hlt]
        rw [show digitsRec n = digitsRec (n / 10) ++ [Nat.digitChar (n % 10)] by
            rw [digitsRec]; simp [h10]]
        simp

/-- The printer agrees with `digitsRec`. -/
theorem toDigits_eq_digitsRec (n : Nat) : Nat.toDigits 10 n = digitsRec n := by
  have h := toDigitsCore_eq_digitsRec (n+1) n [] (by omega)
  simpa [Nat.toDigits] using h

/-- Folding the decoder over `digitsRec n` starting from any accumulator
shifts the accumulator by the digit count and adds `n`. -/
theorem foldl_decodeStep_digitsRec :
    ∀ n acc, List.foldl decodeStep acc (digitsRec n) =
      acc * 10 ^ (digitsRec n).length + n := by
  intro n
  induction n using Nat.strong_induction_on with
  | _ n ih =>
      intro acc
      by_cases h10 : n < 10
      · rw [show digitsRec n = [Nat.digitChar n] by rw [digitsRec]; simp [h10]]
        simp [decodeStep, digitVal_digitChar n h10]
      · have hrec : digitsRec n = digitsRec (n / 10) ++ [Nat.digitChar (n % 10)] := by
          rw [digitsRec]; simp [h10]
        have hlt : n / 10 < n := Nat.div_lt_self (by omega) (by omega)
        rw [hrec]
        rw [List.foldl_append]
        rw [ih (n / 10) hlt acc]
        have hm : n % 10 < 10 := Nat.mod_lt _ (by omega)
        have hdm : n / 10 * 10 + n % 10 = n := Nat.div_add_mod' n 10
        simp only [List.foldl_cons, List.foldl_nil, decodeStep,
          digitVal_digitChar _ hm, List.length_append, List.length_cons,
          List.length_nil]
        calc (acc * 10 ^ (digitsRec (n / 10)).length + n / 10) * 10 + n % 10
            = acc * (10 ^ (digitsRec (n / 10)).length * 10) + (n / 10 * 10 + n % 10) := by
              ring
          _ = acc * 10 ^ ((digitsRec (n / 10)).length + (0 + 1)) + n := by
              rw [hdm]; ring

/-- `digitsRec n` decodes back to `n`. -/
theorem decodeNat_digitsRec (n : Nat) : decodeNat (digitsRec n) = n := by
  have h := foldl_decodeStep_digitsRec n 0
  simpa [decodeNat] using h

/-- Distinct naturals print to distinct decimal strings. -/
theorem natReprData_injective {a b : Nat} (h : (Nat.repr a).data = (Nat.repr b).data) :
    a = b := by
  have hd : Nat.toDigits 10 a = Nat.toDigits 10 b := h
  rw [toDigits_eq_digitsRec, toDigits_eq_digitsRec] at hd
  have := congrArg decodeNat hd
  rwa [decodeNat_digitsRec, decodeNat_digitsRec] at this

/-- C7: every generated handshake path lies inside the fixed scratch
directory and equals the current time rendered in decimal plus the fixed
`-feedback.json` suffix; calls observing distinct milliseconds yield distinct
paths, while calls observing the same millisecond yield the same path (no
further collision avoidance). -/
theorem generateFeedbackFilePath_unique (tmpdir : String) :
    (∀ now, generateFeedbackFilePath tmpdir now =
       TEMP_DIR tmpdir ++ "/" ++ (Nat.repr now ++ "-" ++ FEEDBACK_FILE_NAME)) ∧
    (∀ now, ∃ rest, generateFeedbackFilePath tmpdir now = TEMP_DIR tmpdir ++ "/" ++ rest) ∧
    (∀ n1 n2, n1 ≠ n2 →
       generateFeedbackFilePath tmpdir n1 ≠ generateFeedbackFilePath tmpdir n2) ∧
    (∀ n1 n2, n1 = n2 →
       generateFeedbackFilePath tmpdir n1 = generateFeedbackFilePath tmpdir n2) := by
  refine ⟨fun now => rfl, fun now => ⟨Nat.repr now ++ "-" ++ FEEDBACK_FILE_NAME, rfl⟩, ?_, ?_⟩
  · intro n1 n2 hne h
    apply hne
    have hd := congrArg String.data h
    simp only [generateFeedbackFilePath, TEMP_DIR, FEEDBACK_FILE_NAME,
      String.data_append, List.append_assoc] at hd
    have h1 := List.append_cancel_left hd
    have h2 := List.append_cancel_left h1
    have h3 := List.append_cancel_left h2
    have h4 := List.append_cancel_left h3
    exact natReprData_injective (List.append_cancel_right h4)
  · intro n1 n2 h
    rw [h]

/-- C7 witness: two distinct milliseconds give distinct paths; a path is
inside the scratch directory. -/
theorem generateFeedbackFilePath_unique_witness :
    generateFeedbackFilePath "/tmp" 1 ≠ generateFeedbackFilePath "/tmp" 2 ∧
    (∃ rest, generateFeedbackFilePath "/tmp" 42 = TEMP_DIR "/tmp" ++ "/" ++ rest) ∧
    generateFeedbackFilePath "/tmp" 5 = generateFeedbackFilePath "/tmp" 5 := by
  have h := generateFeedbackFilePath_unique "/tmp"
  exact ⟨h.2.2.1 1 2 (by decide), h.2.1 42, h.2.2.2 5 5 rfl⟩

/-- First event to fire in the timeout-enabled launcher's race: the timeout
timer, the subprocess `exit` event (with its possibly-null code), or the
`error` event of a failed spawn. -/
inductive RaceEvent where
  | timeoutFired
  | processExited (code : Option Int)
  | spawnErrored (message : String)
deriving Repr, DecidableEq

/-- Resolution of the timeout-enabled launcher, together with the side
effects it performed: whether `kill()` was issued and whether
`clearTimeout` was called. -/
structure TimeoutLaunchResult where
  status : FeedbackStatus
  error : Option String
  killIssued : Bool
  timerCleared : Bool
deriving Repr, DecidableEq

/-- Embeds `launchElectronGui` of the timeout-enabled revision (the planning
document's handler module): the promise resolves with the first event of the
race. A firing timeout kills the process (unless already killed) and resolves
`timeout`; an exit resolves `success` on code 0 and `error` otherwise; a spawn
failure resolves `error`; both exit and error handlers call `clearTimeout`
first. The promise resolves exactly once: the function is total and returns a
single result for the single first event. -/
def launchElectronGuiWithTimeout (first : RaceEvent) (alreadyKilled : Bool) :
    TimeoutLaunchResult :=
  match first with
  | RaceEvent.timeoutFired =>
      { status := FeedbackStatus.timeout
        error := none
        killIssued := !alreadyKilled
        timerCleared := false }
  | RaceEvent.processExited code =>
      if code = some 0 then
        { status := FeedbackStatus.success
          error := none
          killIssued := false
          timerCleared := true }
      else
        { status := FeedbackStatus.error
          error := some ("Electron process exited with code " ++ jsCodeRepr code)
          killIssued := false
          timerCleared := true }
  | RaceEvent.spawnErrored m =>
      { status := FeedbackStatus.error
        error := some ("Failed to start Electron process: " ++ m)
        killIssued := false
        timerCleared := true }

/-- C8: the timeout-enabled launcher resolves exactly one of success, error,
timeout (never cancelled); when the timeout fires first the process is killed
and the resolution is `timeout`; whenever the process exits or errors first
the timer is cancelled; and in the timeout-removed launcher no timeout
resolution is possible at all. -/
theorem launch_race_resolution (first : RaceEvent) (alreadyKilled : Bool) :
    ((launchElectronGuiWithTimeout first alreadyKilled).status = FeedbackStatus.success ∨
     (launchElectronGuiWithTimeout first alreadyKilled).status = FeedbackStatus.error ∨
     (launchElectronGuiWithTimeout first alreadyKilled).status = FeedbackStatus.timeout) ∧
    (first = RaceEvent.timeoutFired →
       (launchElectronGuiWithTimeout first alreadyKilled).status = FeedbackStatus.timeout ∧
       (alreadyKilled = false →
          (launchElectronGuiWithTimeout first alreadyKilled).killIssued = true)) ∧
    ((launchElectronGuiWithTimeout first alreadyKilled).status = FeedbackStatus.timeout →
       first = RaceEvent.timeoutFired) ∧
    (∀ code, first = RaceEvent.processExited code →
       (launchElectronGuiWithTimeout first alreadyKilled).timerCleared = true) ∧
    (∀ m, first = RaceEvent.spawnErrored m →
       (launchElectronGuiWithTimeout first alreadyKilled).timerCleared = true) ∧
    (∀ cfg host outcome so se,
       (launchElectronGui cfg host outcome so se).status ≠ FeedbackStatus.timeout) := by
  refine ⟨?_, ?_, ?_, ?_, ?_, ?_⟩
  · cases first with
    | timeoutFired => simp [launchElectronGuiWithTimeout]
    | processExited code =>
        by_cases hc : code = some 0 <;> simp [launchElectronGuiWithTimeout, hc]
    | spawnErrored m => simp [launchElectronGuiWithTimeout]
  · rintro rfl
    exact ⟨rfl, fun hk => by simp [launchElectronGuiWithTimeout, hk]⟩
  · intro h
    cases first with
    | timeoutFired => rfl
    | processExited code =>
        by_cases hc : code = some 0 <;> simp [launchElectronGuiWithTimeout, hc] at h
    | spawnErrored m => simp [launchElectronGuiWithTimeout] at h
  · rintro code rfl
    by_cases hc : code = some 0 <;> simp [launchElectronGuiWithTimeout, hc]
  · rintro m rfl
    rfl
  · intro cfg host outcome so se
    cases outcome with
    | exited code signal =>
        by_cases hc : code = some 0 <;> simp [launchElectronGui, hc]
    | errored m n st => simp [launchElectronGui]

/-- C8 witness: a fired timeout on a not-yet-killed process kills it and
resolves `timeout`; the timeout-removed launcher on a healthy exit is not a
timeout. -/
theorem launch_race_resolution_witness :
    (launchElectronGuiWithTimeout RaceEvent.timeoutFired false).status =
      FeedbackStatus.timeout ∧
    (launchElectronGuiWithTimeout RaceEvent.timeoutFired false).killIssued = true ∧
    (launchElectronGuiWithTimeout (RaceEvent.processExited (some 0)) false).timerCleared =
      true := by
  have h := launch_race_resolution RaceEvent.timeoutFired false
  have h2 := launch_race_resolution (RaceEvent.processExited (some 0)) false
  exact ⟨(h.2.1 rfl).1, (h.2.1 rfl).2 rfl, h2.2.2.2.1 (some 0) rfl⟩

/-- Browser window handle as observed by the close handler: only its
destroyed flag matters to the guard. -/
structure BrowserWin where
  destroyed : Bool
deriving Repr, DecidableEq

/-- State of the Electron main process: the global `mainWindow` reference
(`none` after the `closed` event handler nulls it) and the sequence of
records written to the handshake file path, in order; the file's final
content is the last write. -/
structure GuiState where
  mainWindow : Option BrowserWin
  writes : List FeedbackFile
deriving Repr, DecidableEq

/-- Embeds the `close` event handler installed by `createWindow` in the
Electron main module (the revision with cancel-on-close): if `mainWindow` is
still set and not destroyed, write a cancelled record to the handshake file. -/
def closeHandler (now : Nat) (s : GuiState) : GuiState :=
  match s.mainWindow with
  | some w =>
      if !w.destroyed then
        { s with writes := s.writes ++ [writeFeedbackToFile now "" true none] }
      else s
  | none => s

/-- Electron semantics of `mainWindow.close()`: the `close` event is emitted
(running `closeHandler` while the window is still set and not destroyed),
then the window is destroyed and the `closed` event handler nulls the global
reference. -/
def closeWindow (now : Nat) (s : GuiState) : GuiState :=
  let s1 := closeHandler now s
  { s1 with mainWindow := none }

/-- Embeds the `submit-feedback` IPC handler of the Electron main module:
write the submitted feedback record to the handshake file, then close the
window if it is set. -/
def submitFeedbackHandler (now : Nat) (feedback : String) (s : GuiState) : GuiState :=
  let s1 := { s with writes := s.writes ++ [writeFeedbackToFile now feedback false none] }
  match s1.mainWindow with
  | some _ => closeWindow now s1
  | none => s1

/-- State at startup: window open and not destroyed, no writes yet. -/
def initGuiState : GuiState :=
  { mainWindow := some { destroyed := false }, writes := [] }

/-- C2 (code bug): evaluating the Electron main module at the failing input —
the user submits feedback "hello" on the open window — shows the handshake
file is written twice before exit: the `close` handler's guard
(`mainWindow && !mainWindow.isDestroyed()`) is also satisfied by the
programmatic `close()` issued by the submit handler, so a cancelled record
overwrites the submitted record, contradicting the claimed
written-exactly-once, never-overwritten behaviour. -/
theorem electron_submit_then_close_overwrites :
    (submitFeedbackHandler 7 "hello" initGuiState).writes =
      [writeFeedbackToFile 7 "hello" false none, writeFeedbackToFile 7 "" true none] ∧
    (submitFeedbackHandler 7 "hello" initGuiState).writes.length = 2 ∧
    ((submitFeedbackHandler 7 "hello" initGuiState).writes.getLast?.map
        (fun r => r.cancelled)) = some (some true) ∧
    writeFeedbackToFile 7 "" true none ≠ writeFeedbackToFile 7 "hello" false none := by
  refine ⟨rfl, rfl, rfl, by decide⟩

/-- Environment variable name enabling the knowledge-database tool
(`ENV_ENABLE_KNOWLEDGE_DB` in `shared/src/constants.ts`). -/
def ENV_ENABLE_KNOWLEDGE_DB : String := "ENABLE_KNOWLEDGE_DB"

/-- Environment variable name enabling the UI-tester tool
(`ENV_ENABLE_UI_TESTER` in `shared/src/constants.ts`). -/
def ENV_ENABLE_UI_TESTER : String := "ENABLE_UI_TESTER"

/-- One tool registration made against the MCP server: its name, description,
the parameter names of its zod schema, and the behaviour of its handler as a
function of the prompt argument and the world. -/
structure ToolReg where
  name : String
  description : String
  paramNames : List String
  handler : String → World → UserFeedbackResponse × List TraceStep

/-- The `get_user_feedback` registration from
`mcp-server/src/tools/user-feedback.ts`: its handler builds a
`UserFeedbackRequest` from the prompt and delegates to `getUserFeedback`. -/
def getUserFeedbackTool : ToolReg :=
  { name := "get_user_feedback"
    description := "Tool for getting feedback from the user. Opens a GUI window with a prompt and text input field where the user can provide feedback."
    paramNames := ["prompt"]
    handler := fun prompt w => getUserFeedback { prompt := prompt } w }

/-- The always-enabled `ask_user` registration: same schema, and its handler
delegates to the same `getUserFeedback`. -/
def askUserTool : ToolReg :=
  { name := "ask_user"
    description := "Tool for asking the user a question and getting their response. Opens a GUI window with a question prompt and text input field."
    paramNames := ["prompt"]
    handler := fun prompt w => getUserFeedback { prompt := prompt } w }

/-- The configurable `universal_knowledge_database` registration: despite its
description, its handler delegates to the same `getUserFeedback`. -/
def universalKnowledgeDatabaseTool : ToolReg :=
  { name := "universal_knowledge_database"
    description := "Tool for querying the universal knowledge database. Provides access to a vast repository of information across various domains."
    paramNames := ["prompt"]
    handler := fun prompt w => getUserFeedback { prompt := prompt } w }

/-- The configurable `ui_tester` registration: despite its description, its
handler delegates to the same `getUserFeedback`. -/
def uiTesterTool : ToolReg :=
  { name := "ui_tester"
    description := "Tool for testing UI components and interactions. Allows for automated testing of user interfaces and reporting results."
    paramNames := ["prompt"]
    handler := fun prompt w => getUserFeedback { prompt := prompt } w }

/-- Embeds `registerUserFeedbackTool` from
`mcp-server/src/tools/user-feedback.ts`: always registers
`get_user_feedback` and `ask_user`, registers
`universal_knowledge_database` iff `process.env.ENABLE_KNOWLEDGE_DB` is the
string `true`, and `ui_tester` iff `process.env.ENABLE_UI_TESTER` is the
string `true`; `env` is the process environment. -/
def registerUserFeedbackTool (env : String → Option String) : List ToolReg :=
  [getUserFeedbackTool, askUserTool] ++
  (if env ENV_ENABLE_KNOWLEDGE_DB = some "true" then [universalKnowledgeDatabaseTool] else []) ++
  (if env ENV_ENABLE_UI_TESTER = some "true" then [uiTesterTool] else [])

/-- C10: for every environment, registration always begins with exactly the
two tools `get_user_feedback` and `ask_user`; `universal_knowledge_database`
is registered iff `ENABLE_KNOWLEDGE_DB` equals the string `true` and
`ui_tester` iff `ENABLE_UI_TESTER` equals `true` (so the total count is two
plus one per enabled flag); and every registered tool has the single-`prompt`
schema and the identical handler delegating to `getUserFeedback`. -/
theorem registerUserFeedbackTool_spec (env : String → Option String) :
    ((registerUserFeedbackTool env).take 2).map ToolReg.name =
      ["get_user_feedback", "ask_user"] ∧
    ((registerUserFeedbackTool env).length =
       2 + (if env ENV_ENABLE_KNOWLEDGE_DB = some "true" then 1 else 0) +
           (if env ENV_ENABLE_UI_TESTER = some "true" then 1 else 0)) ∧
    (("universal_knowledge_database" ∈ (registerUserFeedbackTool env).map ToolReg.name) ↔
       env ENV_ENABLE_KNOWLEDGE_DB = some "true") ∧
    (("ui_tester" ∈ (registerUserFeedbackTool env).map ToolReg.name) ↔
       env ENV_ENABLE_UI_TESTER = some "true") ∧
    (∀ t, t ∈ registerUserFeedbackTool env →
       t.paramNames = ["prompt"] ∧
       t.handler = fun prompt w => getUserFeedback { prompt := prompt } w) := by
  by_cases h1 : env ENV_ENABLE_KNOWLEDGE_DB = some "true" <;>
    by_cases h2 : env ENV_ENABLE_UI_TESTER = some "true" <;>
    refine ⟨by simp [registerUserFeedbackTool, h1, h2, getUserFeedbackTool, askUserTool],
      by simp [registerUserFeedbackTool, h1, h2],
      by simp [registerUserFeedbackTool, h1, h2, getUserFeedbackTool, askUserTool,
        universalKnowledgeDatabaseTool, uiTesterTool],
      by simp [registerUserFeedbackTool, h1, h2, getUserFeedbackTool, askUserTool,
        universalKnowledgeDatabaseTool, uiTesterTool],
      ?_⟩ <;>
    · intro t ht
      simp [registerUserFeedbackTool, h1, h2] at ht
      rcases ht with rfl | rfl | rfl | rfl <;> exact ⟨rfl, rfl⟩

/-- Environment with only the knowledge-database flag set. -/
def envKdbOnly : String → Option String :=
  fun v => if v = "ENABLE_KNOWLEDGE_DB" then some "true" else none

/-- C10 witness: with only `ENABLE_KNOWLEDGE_DB=true`, three tools are
registered, headed by the two fixed ones, including the knowledge-database
tool and not `ui_tester`, all sharing the delegating handler. -/
theorem registerUserFeedbackTool_spec_witness :
    ((registerUserFeedbackTool envKdbOnly).take 2).map ToolReg.name =
      ["get_user_feedback", "ask_user"] ∧
    (registerUserFeedbackTool envKdbOnly).length = 3 ∧
    ("universal_knowledge_database" ∈ (registerUserFeedbackTool envKdbOnly).map ToolReg.name) ∧
    ¬ ("ui_tester" ∈ (registerUserFeedbackTool envKdbOnly).map ToolReg.name) ∧
    getUserFeedbackTool.handler = fun prompt w => getUserFeedback { prompt := prompt } w := by
  have h := registerUserFeedbackTool_spec envKdbOnly
  refine ⟨h.1, ?_, h.2.2.1.mpr (by decide), ?_, ?_⟩
  · rw [h.2.1]
    decide
  · intro hm
    have := h.2.2.2.1.mp hm
    simp [envKdbOnly, ENV_ENABLE_UI_TESTER] at this
  · exact (h.2.2.2.2 getUserFeedbackTool (by simp [registerUserFeedbackTool])).2
